import Mathlib

set_option maxRecDepth 4000

/-!
Verification of the formatrix-core document-conversion library
(crates/formatrix-core). Rust strings are modelled as lists of
characters; each Rust function is transcribed into an executable Lean
definition and the specification claims are settled as theorems below.
-/

/-- Rust `&str` / `String` values are modelled as lists of characters. -/
abbrev RStr := List Char

/-- Coercion from Lean string literals into the `RStr` model. -/
def str (s : String) : RStr := s.data

/-- Model of Rust `char::is_whitespace` restricted to the ASCII
whitespace characters that can occur in the inputs considered here. -/
def rust_is_whitespace (c : Char) : Bool :=
  c == ' ' || c == '\t' || c == '\n' || c == '\r' || c == '\x0b' || c == '\x0c'

/-- Model of Rust `str::trim`: drop whitespace from both ends. -/
def rustTrim (s : RStr) : RStr :=
  (s.dropWhile rust_is_whitespace).rdropWhile rust_is_whitespace

/-- Model of Rust `str::starts_with(pat)`. -/
def rustStartsWith (s pat : RStr) : Bool := pat.isPrefixOf s

/-- Model of Rust `str::contains(pat)` for a string pattern: `pat`
occurs as a contiguous substring of `s`. -/
def rustContains (s pat : RStr) : Bool :=
  match s with
  | [] => pat.isEmpty
  | _ :: rest => pat.isPrefixOf s || rustContains rest pat

/-- Strip one trailing carriage return from a line, as Rust
`str::lines` does. -/
def stripCR (l : RStr) : RStr :=
  if l.getLast? = some '\r' then l.dropLast else l

/-- Split a list at every newline character; always returns at least
one (possibly empty) piece. -/
def splitNL : RStr → List RStr
  | [] => [[]]
  | c :: rest =>
    if c = '\n' then [] :: splitNL rest
    else
      match splitNL rest with
      | [] => [[c]]
      | l :: ls => (c :: l) :: ls

/-- Model of Rust `str::lines`: split on `\n`, drop a final empty
fragment produced by a trailing newline, and strip one trailing `\r`
from each line. -/
def rustLines (s : RStr) : List RStr :=
  if s.isEmpty then []
  else
    (if s.getLast? = some '\n' then (splitNL s).dropLast else splitNL s).map stripCR

/-- The closed enumeration of the seven supported dialects
(`SourceFormat` in `ast`). -/
inductive SourceFormat where
  | plainText
  | markdown
  | asciiDoc
  | djot
  | orgMode
  | reStructuredText
  | typst
deriving DecidableEq, Repr

/-! ### The content-heuristic cascade of `file_ops::format_from_content`
(crates/formatrix-core/src/file_ops.rs, lines 98-153).  Each rule is the
condition of one `if` of the Rust source, evaluated on the trimmed
input. -/

/-- Rule 1 (org-mode markers), file_ops.rs line 102. -/
def org_rule (t : RStr) : Bool :=
  rustStartsWith t (str "#+") || rustContains t (str "\n#+")

/-- Rule 2 (AsciiDoc markers), file_ops.rs lines 107-112: the two
consecutive `if` statements returning `AsciiDoc`. -/
def asciidoc_rule (t : RStr) : Bool :=
  (rustStartsWith t (str "= ") && !rustStartsWith t (str "= \x7b"))
    || (rustStartsWith t (str ":toc:") || rustContains t (str "\n:toc:"))

/-- Rule 3 (Typst markers), file_ops.rs lines 115-120. -/
def typst_rule (t : RStr) : Bool :=
  (rustContains t (str "#let ") || rustContains t (str "#set ")
      || rustContains t (str "#show "))
    || (rustStartsWith t (str "#[") || rustContains t (str "\n#["))

/-- Rule 4 (RST markers), file_ops.rs lines 123-133: the directive test
and the title-underline heuristic. -/
def rst_rule (t : RStr) : Bool :=
  (rustContains t (str ".. ")
      && (rustContains t (str "::") || rustContains t (str ".. code-block::")))
    || (rustLines t).any (fun line =>
        decide (line.length > 3)
          && line.all (fun c => c == '=' || c == '-' || c == '~' || c == '^'))

/-- Rule 5 (Djot markers), file_ops.rs line 136. -/
def djot_rule (t : RStr) : Bool :=
  rustContains t (str "\x7b.") || rustContains t (str "[^")

/-- Rule 6 (Markdown markers), file_ops.rs lines 141-149: the three
consecutive `if` statements returning `Markdown`. -/
def markdown_rule (t : RStr) : Bool :=
  (rustStartsWith t (str "# ") || rustContains t (str "\n# "))
    || (rustContains t (str "```") || rustContains t (str "~~~"))
    || (rustContains t (str "[](") || rustContains t (str "![]("))

/-- `file_ops::format_from_content` (file_ops.rs lines 98-153): trim
the input, then run the ordered heuristic cascade, defaulting to plain
text. -/
def format_from_content (content : RStr) : SourceFormat :=
  let trimmed := rustTrim content
  if org_rule trimmed then .orgMode
  else if asciidoc_rule trimmed then .asciiDoc
  else if typst_rule trimmed then .typst
  else if rst_rule trimmed then .reStructuredText
  else if djot_rule trimmed then .djot
  else if markdown_rule trimmed then .markdown
  else .plainText

/-! ### Specification-side definitions for the cascade claims -/

/-- Resolve an input against an ordered list of (rule, format) pairs,
returning the format of the earliest matching rule and defaulting to
plain text, as §4.4 of the specification describes. -/
def firstMatch : List ((RStr → Bool) × SourceFormat) → RStr → SourceFormat
  | [], _ => .plainText
  | (p, f) :: rest, t => if p t then f else firstMatch rest t

/-- The §4.4 rule list in the order the specification states it:
OrgMode, AsciiDoc, Typst, reStructuredText, Djot, Markdown. -/
def cascadeRules : List ((RStr → Bool) × SourceFormat) :=
  [(org_rule, .orgMode), (asciidoc_rule, .asciiDoc), (typst_rule, .typst),
   (rst_rule, .reStructuredText), (djot_rule, .djot), (markdown_rule, .markdown)]

/-! ### C3: the Markdown rule of the cascade -/

/-- The Markdown condition exactly as claim C3 words it (an inline
link/image marker is the substring `](`). -/
def markdown_spec_claimed (t : RStr) : Bool :=
  rustStartsWith t (str "# ") || rustContains t (str "\n# ")
    || rustContains t (str "```") || rustContains t (str "~~~")
    || rustContains t (str "](")

/-- The Markdown condition as the code implements it, with the marker
`[](` (empty link text) instead of the claimed `](`. -/
def markdown_spec_amended (t : RStr) : Bool :=
  rustStartsWith t (str "# ") || rustContains t (str "\n# ")
    || rustContains t (str "```") || rustContains t (str "~~~")
    || rustContains t (str "[](")

/-! ### C4: the reStructuredText rule of the cascade -/

/-- The RST condition exactly as claim C4 words it: directive marker
`.. ` together with `::`, or a line of length greater than 3 that is
one single repeated underline character. -/
def rst_spec_claimed (t : RStr) : Bool :=
  (rustContains t (str ".. ") && rustContains t (str "::"))
    || (rustLines t).any (fun line =>
        decide (line.length > 3)
          && (line.all (fun c => c == '=') || line.all (fun c => c == '-')
              || line.all (fun c => c == '~') || line.all (fun c => c == '^')))

/-- The RST condition as the code implements it: the underline test
only requires every character of the line to be drawn from the set,
not that the same character repeat throughout. -/
def rst_spec_amended (t : RStr) : Bool :=
  (rustContains t (str ".. ") && rustContains t (str "::"))
    || (rustLines t).any (fun line =>
        decide (line.length > 3)
          && line.all (fun c => c == '=' || c == '-' || c == '~' || c == '^'))

/-! ### C5: the FFI content detector `ffi::formatrix_detect_format`
(crates/formatrix-core/src/ffi.rs, lines 335-378) -/

/-- The C-compatible format enumeration (`FfiFormat` in ffi.rs). -/
inductive FfiFormat where
  | plainText
  | markdown
  | asciiDoc
  | djot
  | orgMode
  | reStructuredText
  | typst
deriving DecidableEq, Repr

/-- The `From<FfiFormat> for SourceFormat` conversion (ffi.rs lines
45-57). -/
def FfiFormat.toSourceFormat : FfiFormat → SourceFormat
  | .plainText => .plainText
  | .markdown => .markdown
  | .asciiDoc => .asciiDoc
  | .djot => .djot
  | .orgMode => .orgMode
  | .reStructuredText => .reStructuredText
  | .typst => .typst

/-- FFI detector rule for org-mode (ffi.rs line 348). -/
def ffi_org_rule (t : RStr) : Bool :=
  rustStartsWith t (str "#+") || rustContains t (str "\n#+")

/-- FFI detector rule for AsciiDoc (ffi.rs line 353). -/
def ffi_asciidoc_rule (t : RStr) : Bool :=
  rustStartsWith t (str "= ") || rustStartsWith t (str ":toc:")

/-- FFI detector rule for Markdown (ffi.rs line 358). -/
def ffi_markdown_rule (t : RStr) : Bool :=
  rustStartsWith t (str "# ") || rustContains t (str "```")

/-- FFI detector rule for Djot (ffi.rs line 363). -/
def ffi_djot_rule (t : RStr) : Bool :=
  rustContains t (str "\x7b.") || rustContains t (str "[^")

/-- FFI detector rule for RST (ffi.rs line 368). -/
def ffi_rst_rule (t : RStr) : Bool :=
  rustContains t (str ".. ") && rustContains t (str "::")

/-- FFI detector rule for Typst (ffi.rs line 373). -/
def ffi_typst_rule (t : RStr) : Bool :=
  rustContains t (str "#let") || rustContains t (str "#\x7b")

/-- `ffi::formatrix_detect_format` (ffi.rs lines 335-378), restricted
to its string core (the null-pointer and UTF-8 guards of the C
boundary are outside the model): trim, then run its own cascade in the
order OrgMode, AsciiDoc, Markdown, Djot, RST, Typst. -/
def formatrix_detect_format (content : RStr) : FfiFormat :=
  let trimmed := rustTrim content
  if ffi_org_rule trimmed then .orgMode
  else if ffi_asciidoc_rule trimmed then .asciiDoc
  else if ffi_markdown_rule trimmed then .markdown
  else if ffi_djot_rule trimmed then .djot
  else if ffi_rst_rule trimmed then .reStructuredText
  else if ffi_typst_rule trimmed then .typst
  else .plainText

/-- No rule of the core cascade matches. -/
def core_no_rule (t : RStr) : Bool :=
  !(org_rule t || asciidoc_rule t || typst_rule t || rst_rule t
    || djot_rule t || markdown_rule t)

/-- No rule of the FFI cascade matches. -/
def ffi_no_rule (t : RStr) : Bool :=
  !(ffi_org_rule t || ffi_asciidoc_rule t || ffi_markdown_rule t
    || ffi_djot_rule t || ffi_rst_rule t || ffi_typst_rule t)

/-! ### The canonical document model (`ast`)

The `ast` module itself is not among the provided sources; the variant
sets below are reconstructed from their exhaustive uses in
formats/asciidoc.rs and from §3 of the specification, which lists the
same closed sets.  The diagnostic `span` fields (always `None` in the
sources) are omitted. -/

/-- Text-level content (`Inline` in `ast`). -/
inductive Inline where
  | text (content : RStr)
  | emphasis (content : List Inline)
  | strong (content : List Inline)
  | strikethrough (content : List Inline)
  | code (content : RStr)
  | link (url : RStr) (content : List Inline) (title : Option RStr)
  | image (url : RStr) (alt : RStr) (title : Option RStr)
      (width : Option Nat) (height : Option Nat)
  | math (content : RStr)
  | lineBreak
  | softBreak
deriving Repr

/-- The three list kinds (`ListKind` in `ast`). -/
inductive ListKind where
  | bullet
  | ordered
  | task
deriving DecidableEq, Repr

mutual

/-- Structural units (`Block` in `ast`). -/
inductive Block where
  | paragraph (content : List Inline)
  | heading (level : Nat) (content : List Inline) (id : Option RStr)
  | codeBlock (language : Option RStr) (content : RStr)
      (line_numbers : Bool) (highlight_lines : List Nat)
  | blockQuote (content : List Block) (attribution : Option (List Inline))
      (admonition : Option RStr)
  | list (kind : ListKind) (items : List ListItem) (start : Option Nat)
  | thematicBreak
  | raw (format : SourceFormat) (content : RStr)
  | container (id : Option RStr) (classes : List RStr)
      (attributes : List (RStr × RStr)) (content : List Block)
  | table (header : Option Row) (body : List Row)
      (caption : Option (List Inline))
  | mathBlock (content : RStr)

/-- A list item: nested blocks plus the tri-state task flag. -/
inductive ListItem where
  | mk (content : List Block) (checked : Option Bool)

/-- A table row. -/
inductive Row where
  | mk (cells : List Cell)

/-- A table cell. -/
inductive Cell where
  | mk (content : List Block)

end

/-- The `content` field of a list item. -/
def ListItem.content : ListItem → List Block
  | .mk c _ => c

/-- The `checked` field of a list item. -/
def ListItem.checked : ListItem → Option Bool
  | .mk _ c => c

/-- The `cells` field of a row. -/
def Row.cells : Row → List Cell
  | .mk c => c

/-- The `content` field of a cell. -/
def Cell.content : Cell → List Block
  | .mk c => c

/-- Document-level metadata (`DocumentMeta` in `ast`): optional title
plus extensible fields, per §3. -/
structure DocumentMeta where
  title : Option RStr := none
  authors : List RStr := []
  date : Option RStr := none

/-- The root entity (`Document` in `ast`). -/
structure Document where
  source_format : SourceFormat
  meta : DocumentMeta
  content : List Block
  raw_source : Option RStr

/-- Parse configuration (`ParseConfig` in `traits`): the one recognized
option, defaulting to false (§6). -/
structure ParseConfig where
  preserve_raw_source : Bool := false

/-- Render configuration (`RenderConfig` in `traits`): currently
carries no universally recognized option (§6). -/
structure RenderConfig where

/-- `traits::ConversionError`, reconstructed from its exhaustive match
in file_ops.rs lines 44-55. -/
inductive ConversionError where
  | parseError (message : RStr)
  | ioError
  | unsupportedFeature (format : SourceFormat)
  | serializationError (message : RStr)

/-! ### The AsciiDoc dialect module (formats/asciidoc.rs)

The handler delegates the grammar to the third-party `asciidoc-parser`
crate.  Its output enters the model as explicit data: `AdocBlock`
mirrors the `asciidoc_parser::blocks::Block` variants exactly as
`convert_block` consumes them, with the crate's attribute accessors
(the looked-up `language`, the media `target` and `alt`) carried as
fields. -/

/-- A block of the third-party parser output, as consumed by
`convert_block` (asciidoc.rs lines 71-236). -/
inductive AdocBlock where
  | simple (content : RStr)
  | sectionBlock (level : Nat) (title : RStr)
  | rawDelimited (context : RStr) (content : RStr) (language : Option RStr)
  | compoundDelimited (context : RStr) (children : List AdocBlock)
  | preamble (children : List AdocBlock)
  | breakBlock
  | media (target : Option RStr) (alt : Option RStr)
  | documentAttribute

/-- `parse_inline_content` (asciidoc.rs lines 239-245): inline markup is
not parsed; the text is returned as a single text node. -/
def parse_inline_content (text : RStr) : List Inline :=
  [Inline.text text]

mutual

/-- `convert_block` (asciidoc.rs lines 71-236): convert one
third-party block to the canonical AST, or drop it. -/
def convert_block : AdocBlock → Option Block
  | .simple content => some (.paragraph (parse_inline_content content))
  | .sectionBlock level title =>
    some (.heading level [Inline.text title] none)
  | .rawDelimited context content language =>
    if context = str "listing" ∨ context = str "source" then
      some (.codeBlock language content false [])
    else if context = str "literal" then
      some (.raw .asciiDoc content)
    else if context = str "pass" ∨ context = str "passthrough" then
      some (.raw .asciiDoc content)
    else
      none
  | .compoundDelimited context children =>
    if context = str "quote" ∨ context = str "verse" then
      some (.blockQuote (convert_children children) none none)
    else if context = str "sidebar" then
      some (.container none [str "sidebar"] [] (convert_children children))
    else
      match convert_children children with
      | [] => none
      | b :: _ => some b
  | .preamble children =>
    match convert_children children with
    | [] => none
    | b :: _ => some b
  | .breakBlock => some .thematicBreak
  | .media target alt =>
    some (.paragraph [Inline.image (target.getD []) (alt.getD []) none none none])
  | .documentAttribute => none

/-- The child-conversion loops of `convert_blocks` and `convert_block`:
convert each block, keeping the successes in order. -/
def convert_children : List AdocBlock → List Block
  | [] => []
  | b :: rest =>
    match convert_block b with
    | some c => c :: convert_children rest
    | none => convert_children rest

end

/-- `AsciidocHandler::parse` (asciidoc.rs lines 31-54).  The two
third-party parser results it consumes — the nested block list and the
header title — enter as parameters; everything else is the Rust body:
the function unconditionally returns `Ok`. -/
def AsciidocHandler.parse (parsedBlocks : List AdocBlock)
    (parsedTitle : Option RStr) (input : RStr) (config : ParseConfig) :
    Except ConversionError Document :=
  Except.ok
    { source_format := .asciiDoc
      meta := { title := parsedTitle }
      content := convert_children parsedBlocks
      raw_source := if config.preserve_raw_source then some input else none }

/-! ### The AsciiDoc renderer (asciidoc.rs lines 247-495)

The Rust functions append to a mutable output string; every branch
only ever pushes at the end, so each is modelled as the string it
appends. -/

/-- The conditional trailing newline pushed after raw content in
`render_block` (`if !content.ends_with('\n') \x7b output.push('\n') \x7d`). -/
def ensure_trailing_newline (content : RStr) : RStr :=
  if content.getLast? = some '\n' then content else content ++ ['\n']

mutual

/-- `render_inline` (asciidoc.rs lines 426-495). -/
def render_inline : Inline → RStr
  | .text content => content
  | .emphasis content => str "_" ++ render_inlines content ++ str "_"
  | .strong content => str "*" ++ render_inlines content ++ str "*"
  | .strikethrough content =>
    str "[line-through]#" ++ render_inlines content ++ str "#"
  | .code content => str "`" ++ content ++ str "`"
  | .link url content title =>
    str "link:" ++ url ++ str "[" ++ render_inlines content
      ++ (match title with
          | some t => str ", title=\"" ++ t ++ str "\""
          | none => [])
      ++ str "]"
  | .image url alt title _ _ =>
    str "image::" ++ url ++ str "[" ++ alt
      ++ (match title with
          | some t => str ", title=\"" ++ t ++ str "\""
          | none => [])
      ++ str "]"
  | .math content => str "stem:[" ++ content ++ str "]"
  | .lineBreak => str " +\n"
  | .softBreak => str " "

/-- The inline loops of the renderer: concatenation in order. -/
def render_inlines : List Inline → RStr
  | [] => []
  | i :: rest => render_inline i ++ render_inlines rest

end

mutual

/-- `render_block` (asciidoc.rs lines 276-424). -/
def render_block : Block → RStr
  | .paragraph content => render_inlines content
  | .heading level content id =>
    List.replicate level '=' ++ str " "
      ++ (match id with
          | some i => str "[[" ++ i ++ str "]] "
          | none => [])
      ++ render_inlines content
  | .codeBlock language content _ _ =>
    (match language with
     | some lang => str "[source," ++ lang ++ str "]\n"
     | none => [])
      ++ str "----\n" ++ ensure_trailing_newline content ++ str "----"
  | .blockQuote content attribution _ =>
    str "[quote"
      ++ (match attribution with
          | some attr => str ", " ++ render_inlines attr
          | none => [])
      ++ str "]\n____\n" ++ render_blocks_lines content ++ str "____"
  | .list kind items start => render_items kind start 0 items
  | .thematicBreak =>
    -- three apostrophe characters (0x27), the AsciiDoc thematic break
    List.replicate 3 (Char.ofNat 39)
  | .raw _ content => str "++++\n" ++ ensure_trailing_newline content ++ str "++++"
  | .container _ classes _ content =>
    if classes.contains (str "sidebar") then
      str "****\n" ++ render_blocks_lines content ++ str "****"
    else
      render_blocks_lines content
  | .table header body caption =>
    str "|===\n"
      ++ (match header with
          | some (Row.mk cells) => render_header_cells cells ++ str "\n\n"
          | none => [])
      ++ render_rows body
      ++ str "|==="
      ++ (match caption with
          | some cap => str "\n." ++ render_inlines cap
          | none => [])
  | .mathBlock content =>
    str "[stem]\n++++\n" ++ ensure_trailing_newline content ++ str "++++"

/-- The inner-block loops that push a newline after each block
(blockquote and container bodies). -/
def render_blocks_lines : List Block → RStr
  | [] => []
  | b :: rest => render_block b ++ str "\n" ++ render_blocks_lines rest

/-- The inner-block loops that push blocks back to back (list items and
table cells). -/
def render_blocks_cat : List Block → RStr
  | [] => []
  | b :: rest => render_block b ++ render_blocks_cat rest

/-- The list-item loop of `render_block` (asciidoc.rs lines 327-345);
`i` is the running `enumerate` index. -/
def render_items : ListKind → Option Nat → Nat → List ListItem → RStr
  | _, _, _, [] => []
  | kind, start, i, ListItem.mk content checked :: rest =>
    (match kind with
     | .bullet => str "* "
     | .ordered => (Nat.repr (start.getD 1 + i)).data ++ str ". "
     | .task => if checked.getD false then str "* [x] " else str "* [ ] ")
      ++ render_blocks_cat content ++ str "\n"
      ++ render_items kind start (i + 1) rest

/-- The header-cell loop of the table case (asciidoc.rs lines 381-389). -/
def render_header_cells : List Cell → RStr
  | [] => []
  | Cell.mk content :: rest =>
    str "| " ++ render_blocks_cat content ++ str " " ++ render_header_cells rest

/-- The body-cell loop of the table case (asciidoc.rs lines 393-399). -/
def render_row_cells : List Cell → RStr
  | [] => []
  | Cell.mk content :: rest =>
    str "| " ++ render_blocks_cat content ++ str "\n" ++ render_row_cells rest

/-- The body-row loop of the table case (asciidoc.rs lines 392-401). -/
def render_rows : List Row → RStr
  | [] => []
  | Row.mk cells :: rest => render_row_cells cells ++ str "\n" ++ render_rows rest

end

/-- The main render loop (asciidoc.rs lines 262-265): each block
followed by a blank line. -/
def render_doc_blocks : List Block → RStr
  | [] => []
  | b :: rest => render_block b ++ str "\n\n" ++ render_doc_blocks rest

/-- The trailing-newline trim loop (asciidoc.rs lines 268-270). -/
def trim_trailing_newlines (s : RStr) : RStr :=
  s.rdropWhile (fun c => c == '\n')

/-- `AsciidocHandler::render` (asciidoc.rs lines 252-273): title line,
blocks separated by blank lines, trailing newlines removed; always
`Ok`. -/
def AsciidocHandler.render (doc : Document) (_config : RenderConfig) :
    Except ConversionError RStr :=
  let titlePart :=
    match doc.meta.title with
    | some title => str "= " ++ title ++ str "\n\n"
    | none => []
  Except.ok (trim_trailing_newlines (titlePart ++ render_doc_blocks doc.content))

/-! ### The render dispatcher `file_ops::render_content`

Of the seven dialect modules only formats/asciidoc.rs is among the
provided sources.  The remaining six renderers are modelled from the
specification below: §4.2 defines each `render` as a pure total
function of `doc` and `config` producing dialect text, with no failure
condition, and §8 requires that it never fail on empty `content`.  The
specification does not fix the concrete output text of these six
renderers, so the models share one text-level rendering of the
document; only their totality and purity are used by the claims
settled against them. -/

mutual

/-- Text content of one inline node, for the spec-modelled renderers. -/
def inline_plain_text : Inline → RStr
  | .text content => content
  | .emphasis content => inlines_plain_text content
  | .strong content => inlines_plain_text content
  | .strikethrough content => inlines_plain_text content
  | .code content => content
  | .link _ content _ => inlines_plain_text content
  | .image _ alt _ _ _ => alt
  | .math content => content
  | .lineBreak => str "\n"
  | .softBreak => str " "

/-- Text content of an inline sequence. -/
def inlines_plain_text : List Inline → RStr
  | [] => []
  | i :: rest => inline_plain_text i ++ inlines_plain_text rest

end

mutual

/-- Text content of one block, for the spec-modelled renderers. -/
def block_plain_text : Block → RStr
  | .paragraph content => inlines_plain_text content ++ str "\n"
  | .heading _ content _ => inlines_plain_text content ++ str "\n"
  | .codeBlock _ content _ _ => content ++ str "\n"
  | .blockQuote content _ _ => blocks_plain_text content
  | .list _ items _ => items_plain_text items
  | .thematicBreak => str "\n"
  | .raw _ content => content
  | .container _ _ _ content => blocks_plain_text content
  | .table header body _ =>
    (match header with
     | some (Row.mk cells) => cells_plain_text cells
     | none => [])
      ++ rows_plain_text body
  | .mathBlock content => content ++ str "\n"

/-- Text content of a block sequence. -/
def blocks_plain_text : List Block → RStr
  | [] => []
  | b :: rest => block_plain_text b ++ blocks_plain_text rest

/-- Text content of the items of a list. -/
def items_plain_text : List ListItem → RStr
  | [] => []
  | ListItem.mk content _ :: rest =>
    blocks_plain_text content ++ items_plain_text rest

/-- Text content of the cells of a row. -/
def cells_plain_text : List Cell → RStr
  | [] => []
  | Cell.mk content :: rest =>
    blocks_plain_text content ++ cells_plain_text rest

/-- Text content of the body rows of a table. -/
def rows_plain_text : List Row → RStr
  | [] => []
  | Row.mk cells :: rest => cells_plain_text cells ++ rows_plain_text rest

end

/-- Modelled from the spec: the shared shape of the six renderers whose
sources are not provided — a pure total function of `meta` and
`content` (§4.2) returning `Ok` text, with no failure path. -/
def spec_modelled_render (doc : Document) (_config : RenderConfig) :
    Except ConversionError RStr :=
  Except.ok
    ((match doc.meta.title with
      | some t => t ++ str "\n"
      | none => [])
      ++ blocks_plain_text doc.content)

/-- Modelled from the spec: `PlainTextHandler::render`
(formats/plaintext.rs is not among the provided sources). -/
def PlainTextHandler.render : Document → RenderConfig → Except ConversionError RStr :=
  spec_modelled_render

/-- Modelled from the spec: `MarkdownHandler::render`
(formats/markdown.rs is not among the provided sources). -/
def MarkdownHandler.render : Document → RenderConfig → Except ConversionError RStr :=
  spec_modelled_render

/-- Modelled from the spec: `DjotHandler::render`
(formats/djot.rs is not among the provided sources). -/
def DjotHandler.render : Document → RenderConfig → Except ConversionError RStr :=
  spec_modelled_render

/-- Modelled from the spec: `OrgModeHandler::render`
(formats/orgmode.rs is not among the provided sources). -/
def OrgModeHandler.render : Document → RenderConfig → Except ConversionError RStr :=
  spec_modelled_render

/-- Modelled from the spec: `RstHandler::render`
(formats/rst.rs is not among the provided sources). -/
def RstHandler.render : Document → RenderConfig → Except ConversionError RStr :=
  spec_modelled_render

/-- Modelled from the spec: `TypstHandler::render`
(formats/typst.rs is not among the provided sources). -/
def TypstHandler.render : Document → RenderConfig → Except ConversionError RStr :=
  spec_modelled_render

/-- `file_ops::FileError`, reconstructed from file_ops.rs lines
20-42 (the IO payload is irrelevant here). -/
inductive FileError where
  | io
  | unknownFormat (path : RStr)
  | unsupportedFormat (format : SourceFormat)
  | parse (message : RStr)
  | render (message : RStr)

/-- The `From<ConversionError> for FileError` conversion (file_ops.rs
lines 44-55), applied by the `?` operator of `render_content`. -/
def fileErrorFrom : ConversionError → FileError
  | .parseError message => .parse message
  | .ioError => .io
  | .unsupportedFeature format => .unsupportedFormat format
  | .serializationError message => .render message

/-- `file_ops::render_content` (file_ops.rs lines 279-290): exhaustive
dispatch on the format, propagating handler errors via `?`. -/
def render_content (doc : Document) (format : SourceFormat)
    (config : RenderConfig) : Except FileError RStr :=
  match format with
  | .plainText => (PlainTextHandler.render doc config).mapError fileErrorFrom
  | .markdown => (MarkdownHandler.render doc config).mapError fileErrorFrom
  | .asciiDoc => (AsciidocHandler.render doc config).mapError fileErrorFrom
  | .djot => (DjotHandler.render doc config).mapError fileErrorFrom
  | .orgMode => (OrgModeHandler.render doc config).mapError fileErrorFrom
  | .reStructuredText => (RstHandler.render doc config).mapError fileErrorFrom
  | .typst => (TypstHandler.render doc config).mapError fileErrorFrom

/-! ### Theorems -/

/-- `List.isPrefixOf` agrees with the existential description of a
prefix. -/
theorem isPrefixOf_eq_true_iff (pat : RStr) :
    ∀ s : RStr, pat.isPrefixOf s = true ↔ ∃ t, s = pat ++ t := by
  induction pat with
  | nil => intro s; simp [List.isPrefixOf]
  | cons a as ih =>
    intro s
    cases s with
    | nil => simp [List.isPrefixOf]
    | cons b bs =>
      simp only [List.isPrefixOf, Bool.and_eq_true, beq_iff_eq, ih, List.cons_append]
      constructor
      · rintro ⟨hab, t, ht⟩
        exact ⟨t, by rw [hab, ht]⟩
      · rintro ⟨t, ht⟩
        injection ht with h1 h2
        exact ⟨h1.symm, t, h2⟩

/-- `rustContains` agrees with the existential description of a
contiguous substring. -/
theorem rustContains_iff (pat : RStr) :
    ∀ s : RStr, rustContains s pat = true ↔ ∃ u v, s = u ++ pat ++ v := by
  intro s
  induction s with
  | nil =>
    simp only [rustContains, List.isEmpty_iff]
    constructor
    · rintro rfl; exact ⟨[], [], rfl⟩
    · rintro ⟨u, v, h⟩
      rcases List.append_eq_nil.mp h.symm with ⟨h1, -⟩
      exact (List.append_eq_nil.mp h1).2
  | cons a rest ih =>
    simp only [rustContains, Bool.or_eq_true, isPrefixOf_eq_true_iff, ih]
    constructor
    · rintro (⟨t, ht⟩ | ⟨u, v, hv⟩)
      · exact ⟨[], t, by simpa using ht⟩
      · exact ⟨a :: u, v, by simp [hv]⟩
    · rintro ⟨u, v, huv⟩
      cases u with
      | nil => exact Or.inl ⟨v, by simpa using huv⟩
      | cons b u =>
        injection huv with h1 h2
        exact Or.inr ⟨u, v, h2⟩

/-- A string containing the Markdown image marker `![](` also contains
the link marker `[](`. -/
theorem contains_bang_link (t : RStr)
    (h : rustContains t (str "![](") = true) :
    rustContains t (str "[](") = true := by
  rw [rustContains_iff] at h ⊢
  have hsplit : str "![](" = ['!'] ++ str "[](" := by decide
  rcases h with ⟨u, v, huv⟩
  rw [hsplit] at huv
  exact ⟨u ++ ['!'], v, by rw [huv]; simp⟩

/-- A string containing the RST marker `.. code-block::` also contains
`::`. -/
theorem contains_codeblock_colons (t : RStr)
    (h : rustContains t (str ".. code-block::") = true) :
    rustContains t (str "::") = true := by
  rw [rustContains_iff] at h ⊢
  have hsplit : str ".. code-block::" = str ".. code-block" ++ str "::" := by decide
  rcases h with ⟨u, v, huv⟩
  rw [hsplit] at huv
  exact ⟨u ++ str ".. code-block", v, by rw [huv]; simp⟩

/-- C1: `format_from_content` resolves every input to the earliest
matching rule of the ordered cascade OrgMode, AsciiDoc, Typst,
reStructuredText, Djot, Markdown, defaulting to PlainText; in
particular the input `"#+TITLE: x\n# heading"`, which matches both the
OrgMode and the Markdown marker, resolves to OrgMode. -/
theorem c1_cascade_order :
    (∀ s : RStr, format_from_content s = firstMatch cascadeRules (rustTrim s))
      ∧ format_from_content (str "#+TITLE: x\n# heading") = SourceFormat.orgMode := by
  constructor
  · intro s; rfl
  · decide

/-- The code's Markdown rule coincides with the amended condition: the
extra `![](` disjunct of the source is absorbed by the `[](` test. -/
theorem markdown_rule_eq_amended (t : RStr) :
    markdown_rule t = markdown_spec_amended t := by
  unfold markdown_rule markdown_spec_amended
  cases hF : rustContains t (str "![](") with
  | false => simp [hF, Bool.or_assoc]
  | true =>
    have hE := contains_bang_link t hF
    simp [hF, hE, Bool.or_assoc]

/-- C3 counterexample: the input `"[a](b)"` matches none of the five
earlier rules and contains `](`, so the claim as stated requires
Markdown, but `format_from_content` returns PlainText (the code looks
for `[](`, not `](`). -/
theorem c3_counterexample :
    org_rule (rustTrim (str "[a](b)")) = false
      ∧ asciidoc_rule (rustTrim (str "[a](b)")) = false
      ∧ typst_rule (rustTrim (str "[a](b)")) = false
      ∧ rst_rule (rustTrim (str "[a](b)")) = false
      ∧ djot_rule (rustTrim (str "[a](b)")) = false
      ∧ markdown_spec_claimed (rustTrim (str "[a](b)")) = true
      ∧ format_from_content (str "[a](b)") = SourceFormat.plainText := by
  decide

/-- C3 (amended): for input matching none of the five earlier rules,
`format_from_content` returns Markdown iff the trimmed text begins
with `# ` or contains `\n# `, or contains a fenced marker (``` or
~~~), or contains the empty-text link/image marker `[](`. -/
theorem c3_markdown_rule_amended (s : RStr)
    (h1 : org_rule (rustTrim s) = false)
    (h2 : asciidoc_rule (rustTrim s) = false)
    (h3 : typst_rule (rustTrim s) = false)
    (h4 : rst_rule (rustTrim s) = false)
    (h5 : djot_rule (rustTrim s) = false) :
    format_from_content s = SourceFormat.markdown
      ↔ markdown_spec_amended (rustTrim s) = true := by
  unfold format_from_content
  simp only [h1, h2, h3, h4, h5, Bool.false_eq_true, if_false,
    markdown_rule_eq_amended]
  cases h : markdown_spec_amended (rustTrim s) <;> simp [h]

/-- C3 amended witness: the concrete input `"[](x)"` satisfies all five
side conditions and resolves to Markdown. -/
theorem c3_markdown_rule_amended_witness :
    format_from_content (str "[](x)") = SourceFormat.markdown
      ↔ markdown_spec_amended (rustTrim (str "[](x)")) = true :=
  c3_markdown_rule_amended (str "[](x)") (by decide) (by decide) (by decide)
    (by decide) (by decide)

/-- The code's RST rule coincides with the amended condition: the extra
`.. code-block::` disjunct of the source is absorbed by the `::`
test. -/
theorem rst_rule_eq_amended (t : RStr) :
    rst_rule t = rst_spec_amended t := by
  unfold rst_rule rst_spec_amended
  cases hC : rustContains t (str ".. code-block::") with
  | false => simp [hC]
  | true =>
    have h2 := contains_codeblock_colons t hC
    simp [hC, h2]

/-- C4 counterexample: the input `"=-~^"` matches none of the three
earlier rules and has no line made of a single repeated underline
character, yet `format_from_content` returns ReStructuredText (the
code accepts lines mixing the four underline characters). -/
theorem c4_counterexample :
    org_rule (rustTrim (str "=-~^")) = false
      ∧ asciidoc_rule (rustTrim (str "=-~^")) = false
      ∧ typst_rule (rustTrim (str "=-~^")) = false
      ∧ rst_spec_claimed (rustTrim (str "=-~^")) = false
      ∧ format_from_content (str "=-~^") = SourceFormat.reStructuredText := by
  decide

/-- C4 (amended): for input matching none of the three earlier rules,
`format_from_content` returns ReStructuredText iff the trimmed text
contains `.. ` together with `::`, or some line of length greater
than 3 consists entirely of characters drawn from the set of the four
underline characters, possibly mixed. -/
theorem c4_rst_rule_amended (s : RStr)
    (h1 : org_rule (rustTrim s) = false)
    (h2 : asciidoc_rule (rustTrim s) = false)
    (h3 : typst_rule (rustTrim s) = false) :
    format_from_content s = SourceFormat.reStructuredText
      ↔ rst_spec_amended (rustTrim s) = true := by
  unfold format_from_content
  simp only [h1, h2, h3, Bool.false_eq_true, if_false, rst_rule_eq_amended]
  cases h : rst_spec_amended (rustTrim s) with
  | true => simp [h]
  | false =>
    simp only [h, Bool.false_eq_true, if_false]
    cases hd : djot_rule (rustTrim s) <;>
      cases hm : markdown_rule (rustTrim s) <;> simp [hd, hm]

/-- C4 amended witness: the concrete input `"Title\n====="` satisfies
the three side conditions and resolves to ReStructuredText. -/
theorem c4_rst_rule_amended_witness :
    format_from_content (str "Title\n=====") = SourceFormat.reStructuredText
      ↔ rst_spec_amended (rustTrim (str "Title\n=====")) = true :=
  c4_rst_rule_amended (str "Title\n=====") (by decide) (by decide) (by decide)

/-- C5 counterexample: on the input `"= {foo}"` the FFI detector
returns AsciiDoc while the core resolver returns PlainText (the FFI
AsciiDoc rule lacks the `= {` exclusion), so the two content-detection
entry points do not agree on all inputs. -/
theorem c5_counterexample :
    (formatrix_detect_format (str "= \x7bfoo\x7d")).toSourceFormat
        = SourceFormat.asciiDoc
      ∧ format_from_content (str "= \x7bfoo\x7d") = SourceFormat.plainText
      ∧ (formatrix_detect_format (str "= \x7bfoo\x7d")).toSourceFormat
          ≠ format_from_content (str "= \x7bfoo\x7d") := by
  decide

/-- C5 (amended): the FFI detector implements a different cascade and
only partially agrees with the core resolver: the two agree on every
input matching the shared OrgMode rule (their identical first rule),
and on every input matching no rule of either cascade, where both
default to PlainText. -/
theorem c5_detectors_agree_partially (s : RStr) :
    (org_rule (rustTrim s) = true →
      (formatrix_detect_format s).toSourceFormat = format_from_content s)
    ∧ (core_no_rule (rustTrim s) = true → ffi_no_rule (rustTrim s) = true →
      (formatrix_detect_format s).toSourceFormat = format_from_content s) := by
  constructor
  · intro h
    have hf : ffi_org_rule (rustTrim s) = true := h
    unfold formatrix_detect_format format_from_content
    simp only [h, hf, if_true]
    rfl
  · intro hc hf
    simp only [core_no_rule, Bool.not_eq_true', Bool.or_eq_false_iff] at hc
    simp only [ffi_no_rule, Bool.not_eq_true', Bool.or_eq_false_iff] at hf
    obtain ⟨⟨⟨⟨⟨c1, c2⟩, c3⟩, c4⟩, c5⟩, c6⟩ := hc
    obtain ⟨⟨⟨⟨⟨f1, f2⟩, f3⟩, f4⟩, f5⟩, f6⟩ := hf
    unfold formatrix_detect_format format_from_content
    simp only [c1, c2, c3, c4, c5, c6, f1, f2, f3, f4, f5, f6,
      Bool.false_eq_true, if_false]
    rfl

/-- C5 amended witness: concrete agreement on an OrgMode-marked input
and on an input matching no rule of either cascade. -/
theorem c5_detectors_agree_partially_witness :
    (formatrix_detect_format (str "#+TITLE: x")).toSourceFormat
        = format_from_content (str "#+TITLE: x")
      ∧ (formatrix_detect_format (str "hello world")).toSourceFormat
        = format_from_content (str "hello world") :=
  ⟨(c5_detectors_agree_partially (str "#+TITLE: x")).1 (by decide),
   (c5_detectors_agree_partially (str "hello world")).2 (by decide) (by decide)⟩

/-- C2: evaluation of `convert_block` at a generic compound block (an
AsciiDoc example block) holding two paragraphs: the result is the
first paragraph alone — the second child block is silently discarded,
contradicting the degradation rule of §4.3 (as §9 of the specification
itself flags). -/
theorem c2_compound_truncates_to_first_child :
    convert_block
        (AdocBlock.compoundDelimited (str "example")
          [AdocBlock.simple (str "first paragraph"),
           AdocBlock.simple (str "second paragraph")])
      = some (Block.paragraph [Inline.text (str "first paragraph")]) := by
  rfl

/-- C6 counterexample: a non-empty comment-only input.  The source
drops comment blocks (asciidoc.rs lines 130-133), so the parse result
is `Ok` with empty `content` although the input is non-empty — the
stated claim requires a structured error or non-empty content here. -/
theorem c6_counterexample :
    (∃ d, AsciidocHandler.parse
        [AdocBlock.rawDelimited (str "comment") (str "hidden") none]
        none (str "////\nhidden\n////") {}
        = Except.ok d ∧ d.content = [])
      ∧ str "////\nhidden\n////" ≠ [] := by
  exact ⟨⟨_, rfl, rfl⟩, by decide⟩

/-- C6 (amended): `AsciidocHandler::parse` never returns an error: for
every parser output and every input it returns `Ok`, with `content`
the converted block list — which is empty whenever every block
converts to nothing (comments, document attributes). -/
theorem c6_parse_never_fails (parsedBlocks : List AdocBlock)
    (parsedTitle : Option RStr) (input : RStr) (config : ParseConfig) :
    ∃ d, AsciidocHandler.parse parsedBlocks parsedTitle input config
        = Except.ok d
      ∧ d.content = convert_children parsedBlocks :=
  ⟨_, rfl, rfl⟩

/-- C8: for every input and configuration, `AsciidocHandler::parse`
succeeds and sets `raw_source` to an exact copy of the input exactly
when `preserve_raw_source` is true, and to nothing otherwise. -/
theorem c8_parse_preserve_raw_source (parsedBlocks : List AdocBlock)
    (parsedTitle : Option RStr) (input : RStr) (config : ParseConfig) :
    ∃ d, AsciidocHandler.parse parsedBlocks parsedTitle input config
        = Except.ok d
      ∧ d.raw_source
          = (if config.preserve_raw_source then some input else none) :=
  ⟨_, rfl, rfl⟩

/-- C9: `AsciidocHandler::render` depends only on the document's
`meta` and `content` (and the configuration); in particular two
documents identical except for `raw_source` render identically. -/
theorem c9_render_pure_in_meta_content (d1 d2 : Document)
    (config : RenderConfig) (hm : d1.meta = d2.meta)
    (hc : d1.content = d2.content) :
    AsciidocHandler.render d1 config = AsciidocHandler.render d2 config := by
  unfold AsciidocHandler.render
  rw [hm, hc]

/-- C9 witness: two concrete documents differing only in `raw_source`
render identically. -/
theorem c9_render_pure_witness :
    AsciidocHandler.render
        { source_format := .asciiDoc, meta := {},
          content := [Block.paragraph [Inline.text (str "x")]],
          raw_source := some (str "x") } {}
      = AsciidocHandler.render
        { source_format := .asciiDoc, meta := {},
          content := [Block.paragraph [Inline.text (str "x")]],
          raw_source := none } {} :=
  c9_render_pure_in_meta_content _ _ {} rfl rfl

/-- The trailing-newline trim never leaves a final newline. -/
theorem trim_trailing_newlines_getLast (l : RStr) :
    (trim_trailing_newlines l).getLast? ≠ some '\n' := by
  unfold trim_trailing_newlines
  intro hcontra
  have hne : l.rdropWhile (fun c => c == '\n') ≠ [] := by
    intro hnil
    rw [hnil] at hcontra
    simp at hcontra
  have h1 : (l.rdropWhile (fun c => c == '\n')).getLast hne = '\n' := by
    have h2 := List.getLast?_eq_getLast (l.rdropWhile (fun c => c == '\n')) hne
    rw [h2] at hcontra
    exact Option.some_inj.mp hcontra
  have h3 := List.rdropWhile_last_not (fun c => c == '\n') l hne
  rw [h1] at h3
  simp at h3

/-- C10: for every document and configuration `AsciidocHandler::render`
returns `Ok`, the returned string never ends with a newline, and a
document with empty content and no title renders to the empty
string. -/
theorem c10_render_ok_no_trailing_newline (doc : Document)
    (config : RenderConfig) :
    (∃ s, AsciidocHandler.render doc config = Except.ok s
        ∧ s.getLast? ≠ some '\n')
      ∧ (doc.content = [] → doc.meta.title = none →
          AsciidocHandler.render doc config = Except.ok []) := by
  constructor
  · exact ⟨_, rfl, trim_trailing_newlines_getLast _⟩
  · intro h1 h2
    simp [AsciidocHandler.render, h1, h2, render_doc_blocks,
      trim_trailing_newlines]

/-- C10 witness: the empty document renders to the empty string. -/
theorem c10_render_ok_witness :
    AsciidocHandler.render
        { source_format := .asciiDoc, meta := {}, content := [],
          raw_source := none } {}
      = Except.ok [] :=
  (c10_render_ok_no_trailing_newline _ {}).2 rfl rfl

/-- C7: for all seven dialects and every configuration, rendering a
document with empty `content` returns `Ok`. -/
theorem c7_render_empty_content_ok (format : SourceFormat) (doc : Document)
    (config : RenderConfig) (_h : doc.content = []) :
    ∃ s, render_content doc format config = Except.ok s := by
  cases format <;> exact ⟨_, rfl⟩

/-- C7 witness: rendering a concrete empty document as Markdown and as
AsciiDoc succeeds. -/
theorem c7_render_empty_content_ok_witness :
    (∃ s, render_content
        { source_format := .markdown, meta := {}, content := [],
          raw_source := none } SourceFormat.markdown {} = Except.ok s)
      ∧ (∃ s, render_content
        { source_format := .asciiDoc, meta := {}, content := [],
          raw_source := none } SourceFormat.asciiDoc {} = Except.ok s) :=
  ⟨c7_render_empty_content_ok SourceFormat.markdown _ {} rfl,
   c7_render_empty_content_ok SourceFormat.asciiDoc _ {} rfl⟩
